import Mathlib

/-!
Shallow embedding of the session/cookie/auth core of the backend-api
repository (Rust, axum on Cloudflare Workers), together with theorems
settling the specification claims about it.

Embedded components:
* `src/services/cookie.rs` — cookie parsing and the `CookieJar`
  (original cookies vs delta of added cookies; only the delta is emitted
  as `Set-Cookie` response headers).
* `src/services/auth.rs` — OAuth2 scope rendering, authorization-URL
  construction (`DiscordOAuth2::get_url`), token shape, and
  `DiscordAPIClient::set_cookies`.
* `src/services/user.rs` — `DiscordUserApi::get_user`, including its
  divergence (Rust `panic!`) on upstream failure.
* `src/api/auth.rs` — the `login`, `redirect`, `status`, `logout`
  handlers, `remove_error_cookies`, `add_success_cookies`.
* `src/middleware/api_protect.rs` — `protection_middleware`.
* `src/api/protected/gateway.rs` — `handle_websocket`.

Outbound network calls (token exchange, refresh, user fetch, durable
object fetch) are modelled as explicit oracle arguments: the handler is
a pure function of the request data and of the outcomes the upstream
services would return.
-/

namespace BackendApi

/-! ## Cookie data model (cookie crate, as used by `src/services/cookie.rs`) -/

/-- SameSite attribute of a cookie (cookie crate `SameSite`). -/
inductive SameSite where
  | strict
  | lax
  | none
deriving DecidableEq, Repr

/-- A cookie with the attributes this code base uses.  `maxAge` is in
whole seconds (`cookie::time::Duration` as produced by
`Duration::seconds`/`Duration::ZERO`). -/
structure Cookie where
  name : String
  value : String
  path : Option String := Option.none
  domain : Option String := Option.none
  secure : Option Bool := Option.none
  httpOnly : Option Bool := Option.none
  sameSite : Option SameSite := Option.none
  maxAge : Option Int := Option.none
deriving DecidableEq, Repr

/-- Unicode `White_Space` code points: the class trimmed by Rust's
`str::trim` and the separator class of `str::split_whitespace`. -/
def rustIsWhitespace (c : Char) : Bool :=
  let n := c.toNat
  n = 0x9 || n = 0xA || n = 0xB || n = 0xC || n = 0xD || n = 0x20 ||
    n = 0x85 || n = 0xA0 || n = 0x1680 || (0x2000 ≤ n && n ≤ 0x200A) ||
    n = 0x2028 || n = 0x2029 || n = 0x202F || n = 0x205F || n = 0x3000

/-- Rust `str::trim` on a character list: strip whitespace from both
ends. -/
def trimChars (l : List Char) : List Char :=
  ((l.dropWhile rustIsWhitespace).reverse.dropWhile rustIsWhitespace).reverse

/-- Rust `str::split(sep)` on a character list: split at every separator
occurrence, keeping empty pieces. -/
def splitOnChar (sep : Char) : List Char → List (List Char)
  | [] => [[]]
  | c :: cs =>
    if c = sep then [] :: splitOnChar sep cs
    else
      match splitOnChar sep cs with
      | [] => [[c]]
      | piece :: rest => (c :: piece) :: rest

/-- Strip one pair of surrounding double quotes from a cookie value, as
`Cookie::parse` does when the value is at least two characters long and
both starts and ends with `"`. -/
def stripQuotes (l : List Char) : List Char :=
  match l with
  | '"' :: rest@(_ :: _) =>
    if rest.getLast? = some '"' then rest.dropLast else l
  | _ => l

/-- `Cookie::parse` on a single `;`-free segment (as invoked by
`cookies_from_request`): split at the first `=` (`str::find`; no `=` is
a `MissingPair` error), trim name and value, reject an empty name, strip
surrounding quotes from the value.  Attributes are absent because the
segment holds no `;`. -/
def Cookie.parse (s : String) : Option Cookie :=
  let cs := s.data
  let nameCs := cs.takeWhile (fun c => c ≠ '=')
  match cs.dropWhile (fun c => c ≠ '=') with
  | [] => Option.none
  | _ :: valueCs =>
    let name := trimChars nameCs
    let value := stripQuotes (trimChars valueCs)
    if name = [] then Option.none
    else some { name := ⟨name⟩, value := ⟨value⟩ }

/-- `cookies_from_request`: flatten all `Cookie:` header lines, split each
on `;`, trim each segment, and keep the segments `Cookie::parse`
accepts (malformed segments are silently dropped).  Header lines are
modelled as the strings that survived `HeaderValue::to_str`. -/
def cookies_from_request (lines : List String) : List Cookie :=
  (lines.flatMap (fun line => splitOnChar ';' line.data)).filterMap
    (fun cookie => Cookie.parse ⟨trimChars cookie⟩)

/-- Insert a cookie into a name-keyed collection, replacing any existing
cookie of the same name (`HashSet::replace` keyed on the cookie name, as
in `cookie::CookieJar`). -/
def replaceByName (l : List Cookie) (c : Cookie) : List Cookie :=
  (l.filter (fun x => x.name ≠ c.name)) ++ [c]

/-- The `CookieJar` of `src/services/cookie.rs`: original cookies come
from the request (`add_original`), the delta holds cookies added by the
handler (`add`); only the delta is serialized into `Set-Cookie`
headers. -/
structure CookieJar where
  original : List Cookie
  delta : List Cookie
deriving DecidableEq, Repr

/-- `CookieJar::from_headers`: a fresh jar whose originals are the parsed
request cookies (name-keyed, later occurrences replacing earlier ones)
and whose delta is empty. -/
def CookieJar.from_headers (lines : List String) : CookieJar :=
  { original := (cookies_from_request lines).foldl replaceByName []
    delta := [] }

/-- `CookieJar::get`: delta first, then originals (cookie crate
`CookieJar::get`). -/
def CookieJar.get (j : CookieJar) (name : String) : Option Cookie :=
  match j.delta.find? (fun c => c.name = name) with
  | some c => some c
  | Option.none => j.original.find? (fun c => c.name = name)

/-- `CookieJar::add`: record the cookie in the delta (name-keyed). -/
def CookieJar.add (j : CookieJar) (c : Cookie) : CookieJar :=
  { j with delta := replaceByName j.delta c }

/-- The `Set-Cookie` headers a jar contributes to the response
(`set_cookies` in `src/services/cookie.rs` iterates the delta). -/
def CookieJar.setCookieHeaders (j : CookieJar) : List Cookie :=
  j.delta

/-! ## Identity-provider client (`src/services/auth.rs`) -/

/-- Base URL constant `DISCORD_API_BASE_URL` from `src/lib.rs`. -/
def DISCORD_API_BASE_URL : String := "https://discord.com/api/v10"

/-- The OAuth2 scopes of `DiscordOAuth2Scope` in `src/services/auth.rs`. -/
inductive DiscordOAuth2Scope where
  | Identify
  | Guilds
  | Email
  | GuildsChannelsRead
  | Rpc
  | RpcVoiceWrite
  | RpcScreenshareRead
  | ApplicationsBuildsRead
  | WebhookIncoming
  | ApplicationsEntitlements
  | ActivitiesInvitesWrite
  | Voice
  | DmChannelsMessagesRead
  | PresencesRead
  | AccountGlobalNameUpdate
  | SdkSocialLayer
  | ApplicationsCommandsPermissionsUpdate
  | LobbiesWrite
  | DmChannelsMessagesWrite
  | PresencesWrite
  | PaymentSourcesCountryCode
  | DmChannelsRead
  | RelationshipsRead
  | ActivitiesRead
  | MessagesRead
  | RpcScreenshareWrite
  | RpcVideoRead
  | ApplicationsCommands
  | RpcNotificationsRead
  | GdmJoin
  | GuildsJoin
  | GuildsMembersRead
  | Connections
  | Bot
  | RpcVoiceRead
  | RpcVideoWrite
  | RpcActivitiesWrite
  | ApplicationsBuildsUpload
  | ApplicationsStoreUpdate
  | ActivitiesWrite
  | RelationshipsWrite
  | RoleConnectionsWrite
  | Openid
deriving DecidableEq, Repr

/-- The `Display` rendering of a scope (`impl Display for DiscordOAuth2Scope`). -/
def DiscordOAuth2Scope.render : DiscordOAuth2Scope → String
  | .Identify => "identify"
  | .Guilds => "guilds"
  | .Email => "email"
  | .GuildsChannelsRead => "guilds.channels.read"
  | .Rpc => "rpc"
  | .RpcVoiceWrite => "rpc.voice.write"
  | .RpcScreenshareRead => "rpc.screenshare.read"
  | .ApplicationsBuildsRead => "applications.builds.read"
  | .WebhookIncoming => "webhook.incoming"
  | .ApplicationsEntitlements => "applications.entitlements"
  | .ActivitiesInvitesWrite => "activities.invites.write"
  | .Voice => "voice"
  | .DmChannelsMessagesRead => "dm_channels.messages.read"
  | .PresencesRead => "presences.read"
  | .AccountGlobalNameUpdate => "account.global_name.update"
  | .SdkSocialLayer => "sdk.social_layer"
  | .ApplicationsCommandsPermissionsUpdate => "applications.commands.permissions.update"
  | .LobbiesWrite => "lobbies.write"
  | .DmChannelsMessagesWrite => "dm_channels.messages.write"
  | .PresencesWrite => "presences.write"
  | .PaymentSourcesCountryCode => "payment_sources.country_code"
  | .DmChannelsRead => "dm_channels.read"
  | .RelationshipsRead => "relationships.read"
  | .ActivitiesRead => "activities.read"
  | .MessagesRead => "messages.read"
  | .RpcScreenshareWrite => "rpc.screenshare.write"
  | .RpcVideoRead => "rpc.video.read"
  | .ApplicationsCommands => "applications.commands"
  | .RpcNotificationsRead => "rpc.notifications.read"
  | .GdmJoin => "gdm.join"
  | .GuildsJoin => "guilds.join"
  | .GuildsMembersRead => "guilds.members.read"
  | .Connections => "connections"
  | .Bot => "bot"
  | .RpcVoiceRead => "rpc.voice.read"
  | .RpcVideoWrite => "rpc.video.write"
  | .RpcActivitiesWrite => "rpc.activities.write"
  | .ApplicationsBuildsUpload => "applications.builds.upload"
  | .ApplicationsStoreUpdate => "applications.store.update"
  | .ActivitiesWrite => "activities.write"
  | .RelationshipsWrite => "relationships.write"
  | .RoleConnectionsWrite => "role_connections.write"
  | .Openid => "openid"

/-- UTF-8 byte sequence of a character (standard encoding; both the
`urlencoding` crate and the `url` crate percent-encode byte-wise over
UTF-8). -/
def utf8Bytes (c : Char) : List Nat :=
  let n := c.toNat
  if n < 0x80 then [n]
  else if n < 0x800 then [0xC0 + n / 0x40, 0x80 + n % 0x40]
  else if n < 0x10000 then
    [0xE0 + n / 0x1000, 0x80 + (n / 0x40) % 0x40, 0x80 + n % 0x40]
  else
    [0xF0 + n / 0x40000, 0x80 + (n / 0x1000) % 0x40, 0x80 + (n / 0x40) % 0x40,
      0x80 + n % 0x40]

/-- Uppercase hexadecimal digit for a value below 16. -/
def hexDigitUpper (n : Nat) : Char :=
  if n < 10 then Char.ofNat (48 + n) else Char.ofNat (55 + n)

/-- Percent-encode one byte as a three-character `%XX` sequence. -/
def percentEncodeByte (b : Nat) : List Char :=
  ['%', hexDigitUpper (b / 16), hexDigitUpper (b % 16)]

/-- Characters the `urlencoding` crate leaves unencoded: ASCII
alphanumerics and `-`, `.`, `_`, `~`. -/
def isUrlUnreserved (c : Char) : Bool :=
  let n := c.toNat
  (0x41 ≤ n && n ≤ 0x5A) || (0x61 ≤ n && n ≤ 0x7A) || (0x30 ≤ n && n ≤ 0x39) ||
    n = 0x2D || n = 0x2E || n = 0x5F || n = 0x7E

/-- `urlencoding::encode` on one character: unreserved characters pass
through, everything else has each UTF-8 byte percent-encoded. -/
def urlencodeChar (c : Char) : List Char :=
  if isUrlUnreserved c then [c] else (utf8Bytes c).flatMap percentEncodeByte

/-- `urlencoding::encode` on a whole string. -/
def urlencode (s : String) : String :=
  ⟨s.data.flatMap urlencodeChar⟩

/-- Whether `Url::set_query` percent-encodes a character: the WHATWG
special-scheme query percent-encode set — C0 controls and space
(code points below 0x21), `"`, `#`, `<`, `>`, `'` (https is a special
scheme), and everything above 0x7E. -/
def queryNeedsEncoding (c : Char) : Bool :=
  let n := c.toNat
  n < 0x21 || n = 0x22 || n = 0x23 || n = 0x27 || n = 0x3C || n = 0x3E || 0x7E < n

/-- `Url::set_query` encoding of one character. -/
def encodeQueryChar (c : Char) : List Char :=
  if queryNeedsEncoding c then (utf8Bytes c).flatMap percentEncodeByte else [c]

/-- `Url::set_query` encoding of a query string. -/
def encodeQuery (s : String) : String :=
  ⟨s.data.flatMap encodeQueryChar⟩

/-- The `DiscordOAuth2` request data (`src/services/auth.rs`). -/
structure DiscordOAuth2 where
  client_id : String
  redirect_uri : String
  scopes : List DiscordOAuth2Scope

/-- `DiscordOAuth2::get_url`: parse the authorize endpoint URL, join the
rendered scopes with a literal `+`, format the query manually (the
redirect URI percent-encoded via `urlencoding::encode`, the scope string
deliberately left unencoded) and install it with `Url::set_query`. -/
def DiscordOAuth2.get_url (o : DiscordOAuth2) : String :=
  let discord_url := DISCORD_API_BASE_URL ++ "/oauth2/authorize"
  let scope_string := String.intercalate "+" (o.scopes.map DiscordOAuth2Scope.render)
  let query := "client_id=" ++ o.client_id ++ "&response_type=code&redirect_uri=" ++
    urlencode o.redirect_uri ++ "&scope=" ++ scope_string
  discord_url ++ "?" ++ encodeQuery query

/-- `DiscordOAuthAccessToken` (`src/services/auth.rs`). -/
structure DiscordOAuthAccessToken where
  access_token : String
  refresh_token : String
  token_type : String
  expires_in : Int
  scope : String
deriving DecidableEq, Repr

/-- `DiscordAPIClient::set_cookies`: the Session Cookie Pair minted from
a token exchange result — both cookies get `Path=/`, `HttpOnly`,
`Secure`, `SameSite=None`; the access cookie additionally carries
`Max-Age=<expires_in>`. -/
def DiscordAPIClient.set_cookies (tokens : DiscordOAuthAccessToken) :
    Cookie × Cookie :=
  let access_cookie : Cookie :=
    { name := "discord_token", value := tokens.access_token,
      path := some "/", httpOnly := some true, secure := some true,
      sameSite := some SameSite.none, maxAge := some tokens.expires_in }
  let refresh_cookie : Cookie :=
    { name := "discord_refresh_token", value := tokens.refresh_token,
      path := some "/", httpOnly := some true, secure := some true,
      sameSite := some SameSite.none }
  (access_cookie, refresh_cookie)

/-! ## User service (`src/services/user.rs`) -/

/-- `DiscordUser` (`src/services/user.rs`). -/
structure DiscordUser where
  id : String
  username : String
  discriminator : String
  global_name : Option String
  bot : Option Bool
  avatar : Option String
  verified : Bool
  email : Option String
  flags : Nat
  banner : Option String
  accent_color : Option Nat
  premium_type : Nat
  public_flags : Nat
deriving DecidableEq, Repr

/-- What the upstream `GET /users/@me` call yields once the HTTP exchange
completes: a status code and the result of decoding the body as a
`DiscordUser` (`Option.none` when the body does not match the schema). -/
structure UpstreamUserResponse where
  status : Nat
  decoded : Option DiscordUser
deriving DecidableEq, Repr

/-- `reqwest::StatusCode::is_success`: 2xx. -/
def statusIsSuccess (s : Nat) : Bool :=
  200 ≤ s && s < 300

/-- Observable outcome of `DiscordUserApi::get_user`: either a user is
returned to the caller, or the call diverges via Rust `panic!` (the
request aborts; control never returns to the caller, so in particular no
`Err` value is produced). -/
inductive GetUserOutcome where
  | ok (u : DiscordUser)
  | panicked
deriving DecidableEq, Repr

/-- `DiscordUserApi::get_user`, as written: a transport error panics
(`map_err(|e| panic!(..))`), a non-success status panics, a body that
fails to decode panics; only a 2xx status with a well-formed body
returns.  The declared `Result<DiscordUser, Error>` error arm is
unreachable. -/
def DiscordUserApi.get_user (transport : Except String UpstreamUserResponse) :
    GetUserOutcome :=
  match transport with
  | .error _ => .panicked
  | .ok response =>
    if statusIsSuccess response.status then
      match response.decoded with
      | some user => .ok user
      | Option.none => .panicked
    else
      .panicked

/-! ## Session entry points (`src/api/auth.rs`)

Each handler is embedded as a pure function of its request data and of
oracles for the outbound calls.  The `fetchUser` oracle stands for the
value the handler's `match discord_user_api.get_user().await` scrutinee
takes: the handler source branches on `Ok`/`Err`, and the claims about
the handler are settled against those branches (the separate fact that
`get_user` as written can never produce the `Err` value is settled
against `DiscordUserApi.get_user` above). -/

/-- `remove_error_cookies`: two clones of the inbound jar, one with the
cleared `discord_token` cookie added, one with the cleared
`discord_refresh_token` cookie added.  The cleared cookies carry
`Path=/`, `HttpOnly` and `Max-Age=0` only. -/
def remove_error_cookies (jar : CookieJar) : CookieJar × CookieJar :=
  let discord_token : Cookie :=
    { name := "discord_token", value := "",
      path := some "/", httpOnly := some true, maxAge := some 0 }
  let discord_refresh_token : Cookie :=
    { name := "discord_refresh_token", value := "",
      path := some "/", httpOnly := some true, maxAge := some 0 }
  (jar.add discord_token, jar.add discord_refresh_token)

/-- `add_success_cookies`: two clones of the inbound jar, each with one
of the freshly minted session cookies added. -/
def add_success_cookies (jar : CookieJar) (cookies : Cookie × Cookie) :
    CookieJar × CookieJar :=
  (jar.add cookies.1, jar.add cookies.2)

/-- Result of the `status` handler: HTTP status code, the optional pair
of jars returned with the response (whose deltas become `Set-Cookie`
headers), and the JSON user body on success. -/
structure StatusResult where
  httpStatus : Nat
  jars : Option (CookieJar × CookieJar)
  user : Option DiscordUser
deriving DecidableEq, Repr

/-- Lines 123–157 of `src/api/auth.rs`: obtain a usable access token.
With a `discord_token` cookie, use its value (no cookies to set).
Otherwise read the Discord env config (missing config is a 500), then
the `discord_refresh_token` cookie (absent is a 401), then call the
refresh oracle (failure is a 401 with no cookies); on refresh success
mint the new Session Cookie Pair. -/
def statusToken (config : Option (String × String)) (jar : CookieJar)
    (refresh : String → Except String DiscordOAuthAccessToken) :
    Except StatusResult (String × Option (CookieJar × CookieJar)) :=
  match (jar.get "discord_token").map Cookie.value with
  | some token => .ok (token, Option.none)
  | Option.none =>
    match config with
    | Option.none => .error ⟨500, Option.none, Option.none⟩
    | some _ =>
      match (jar.get "discord_refresh_token").map Cookie.value with
      | Option.none => .error ⟨401, Option.none, Option.none⟩
      | some refresh_token =>
        match refresh refresh_token with
        | .error _ => .error ⟨401, Option.none, Option.none⟩
        | .ok token =>
          .ok (token.access_token,
            some (add_success_cookies jar (DiscordAPIClient.set_cookies token)))

/-- The `status` handler (`src/api/auth.rs`). After `statusToken`, fetch
the user with the bearer token; on failure clear both session cookies
and answer 401; on success answer 200 with the user and whatever cookies
the refresh leg minted. -/
def status (config : Option (String × String)) (jar : CookieJar)
    (refresh : String → Except String DiscordOAuthAccessToken)
    (fetchUser : String → Except String DiscordUser) : StatusResult :=
  match statusToken config jar refresh with
  | .error r => r
  | .ok (token, cookies) =>
    match fetchUser token with
    | .ok user => ⟨200, cookies, some user⟩
    | .error _ => ⟨401, some (remove_error_cookies jar), Option.none⟩

/-- A uniform response shape for the four session entry points: HTTP
status, emitted `Set-Cookie` headers, redirect target. -/
structure HandlerResponse where
  httpStatus : Nat
  setCookies : List Cookie
  redirectTo : Option String
  user : Option DiscordUser
deriving DecidableEq, Repr

/-- `Set-Cookie` headers of an optional jar pair: each returned jar
contributes its delta. -/
def jarsSetCookies : Option (CookieJar × CookieJar) → List Cookie
  | Option.none => []
  | some (j1, j2) => j1.setCookieHeaders ++ j2.setCookieHeaders

/-- The `login` handler: with missing config redirect to the webpage;
with a `discord_token` cookie redirect to the dashboard; otherwise a 307
redirect to the provider authorization URL.  No path returns a jar, so
no `Set-Cookie` header is ever emitted. -/
def login (config : Option (String × String)) (api_host webpage : String)
    (jar : CookieJar) : HandlerResponse :=
  match config with
  | Option.none => ⟨303, [], some webpage, Option.none⟩
  | some (client_id, _) =>
    let redirect_uri := api_host ++ "/api/auth/redirect"
    match jar.get "discord_token" with
    | some _ => ⟨303, [], some (webpage ++ "/dashboard"), Option.none⟩
    | Option.none =>
      let discord_oauth : DiscordOAuth2 :=
        { client_id := client_id, redirect_uri := redirect_uri,
          scopes := [.Identify, .Guilds, .Email] }
      ⟨307, [], some discord_oauth.get_url, Option.none⟩

/-- The `redirect` (OAuth2 callback) handler: missing config or missing
`code` query parameter redirect to the webpage with no cookies; a failed
code exchange redirects to the webpage with no cookies; a successful
exchange returns both freshly minted session cookies and redirects to
the dashboard. -/
def redirect (config : Option (String × String)) (_api_host webpage : String)
    (code : Option String) (jar : CookieJar)
    (exchange : String → Except String DiscordOAuthAccessToken) :
    HandlerResponse :=
  let dashboard := webpage ++ "/dashboard"
  match config with
  | Option.none => ⟨307, [], some webpage, Option.none⟩
  | some _ =>
    match code with
    | Option.none => ⟨307, [], some webpage, Option.none⟩
    | some code =>
      match exchange code with
      | .error _ => ⟨303, [], some webpage, Option.none⟩
      | .ok token =>
        let cookies := DiscordAPIClient.set_cookies token
        let pair := (jar.add cookies.1, jar.add cookies.2)
        ⟨303, jarsSetCookies (some pair), some dashboard, Option.none⟩

/-- The `status` handler's response in the uniform shape. -/
def statusResponse (config : Option (String × String)) (jar : CookieJar)
    (refresh : String → Except String DiscordOAuthAccessToken)
    (fetchUser : String → Except String DiscordUser) : HandlerResponse :=
  let r := status config jar refresh fetchUser
  ⟨r.httpStatus, jarsSetCookies r.jars, Option.none, r.user⟩

/-- The `logout` handler: unconditionally clear both session cookies and
redirect to the webpage. -/
def logout (webpage : String) (jar : CookieJar) : HandlerResponse :=
  ⟨303, jarsSetCookies (some (remove_error_cookies jar)), some webpage, Option.none⟩

/-! ## Access Guard (`src/middleware/api_protect.rs`) -/

/-- Split a character list at every whitespace character, keeping empty
pieces (an auxiliary for `split_whitespace`). -/
def splitAtWhitespace : List Char → List (List Char)
  | [] => [[]]
  | c :: cs =>
    if rustIsWhitespace c then [] :: splitAtWhitespace cs
    else
      match splitAtWhitespace cs with
      | [] => [[c]]
      | piece :: rest => (c :: piece) :: rest

/-- Rust `str::split_whitespace`: split on Unicode whitespace, dropping
empty pieces. -/
def splitWhitespace (s : String) : List String :=
  ((splitAtWhitespace s.data).filter (fun t => t ≠ [])).map
    (fun t => (⟨t⟩ : String))

/-- Observable outcome of `protection_middleware`. -/
inductive GuardOutcome where
  | badRequest
  | unauthorized
  | passed
deriving DecidableEq, Repr

/-- The `match` of `protection_middleware` on
`user_agent.split_whitespace().collect::<Vec<_>>().as_slice()`: exactly
two tokens whose first is `DiscordBot` or `DiscordGuild` pass; anything
else is unauthorized. -/
def classifyUserAgent (ua : String) : GuardOutcome :=
  match splitWhitespace ua with
  | [first, _second] =>
    if first = "DiscordBot" then .passed
    else if first = "DiscordGuild" then .passed
    else .unauthorized
  | _ => .unauthorized

/-- `protection_middleware`: a missing `User-Agent` header is a 400; a
value splitting into exactly `["DiscordBot", token]` or
`["DiscordGuild", guild_id]` passes through to the next handler; every
other value is a 401. -/
def protection_middleware (userAgent : Option String) : GuardOutcome :=
  match userAgent with
  | Option.none => .badRequest
  | some ua => classifyUserAgent ua

/-! ## Gateway Router (`src/api/protected/gateway.rs`) -/

/-- HTTP method of an inbound request as the gateway handler sees it. -/
inductive Method where
  | get
  | head
  | post
  | put
  | delete
  | options
  | patch
deriving DecidableEq, Repr

/-- The inbound request data `handle_websocket` consumes. -/
structure InboundRequest where
  method : Method
  uri : String
  headers : List (String × String)
deriving DecidableEq, Repr

/-- The request handed to the durable object stub. -/
structure ForwardedRequest where
  method : Method
  url : String
  headers : List (String × String)
deriving DecidableEq, Repr

/-- Response from the durable object (`worker::Response`). -/
structure WorkerResponse where
  status : Nat
  headers : List (String × String)
  body : String
deriving DecidableEq, Repr

/-- Host-platform oracles for the gateway: whether each resolution step
succeeds, and what the durable instance answers to a forwarded
request. -/
structure GatewayUpstream where
  durableObjectOk : Bool
  idFromNameOk : Bool
  stubOk : Bool
  newRequestOk : Bool
  headersOk : Bool
  fetch : ForwardedRequest → Except String WorkerResponse

/-- Outcome of `handle_websocket`: a plain-text diagnostic body, or the
durable instance's response (recorded together with the exact request
that was forwarded to obtain it). -/
inductive GatewayResult where
  | errorText (msg : String)
  | forwarded (req : ForwardedRequest) (resp : WorkerResponse)
deriving DecidableEq, Repr

/-- `handle_websocket`: resolve `BOTROOM`, the id-from-name, the stub;
build a new `worker::Request` from the original URI with method
hardcoded to `worker::Method::Get`; copy every original header onto it;
fetch the durable instance and return its response unmodified.  Each
failed step yields its distinct plain-text body. -/
def handle_websocket (_id : String) (req : InboundRequest)
    (up : GatewayUpstream) : GatewayResult :=
  if !up.durableObjectOk then .errorText "Error accessing durable object"
  else if !up.idFromNameOk then .errorText "Invalid object ID"
  else if !up.stubOk then .errorText "Error getting durable object stub"
  else if !up.newRequestOk then .errorText "Error creating request"
  else if !up.headersOk then .errorText "Error setting headers"
  else
    let new_req : ForwardedRequest :=
      { method := Method.get, url := req.uri, headers := req.headers }
    match up.fetch new_req with
    | .error _ => .errorText "Error fetching durable object"
    | .ok response => .forwarded new_req response

/-! ## Shared lemmas -/

/-- Adding a cookie to a jar with an empty delta yields the singleton
delta. -/
theorem CookieJar.add_delta_of_empty (jar : CookieJar) (h : jar.delta = [])
    (c : Cookie) : (jar.add c).delta = [c] := by
  simp [CookieJar.add, replaceByName, h]

/-- The cleared `discord_token` cookie built by `remove_error_cookies`. -/
def clearedAccessCookie : Cookie :=
  { name := "discord_token", value := "",
    path := some "/", httpOnly := some true, maxAge := some 0 }

/-- The cleared `discord_refresh_token` cookie built by
`remove_error_cookies`. -/
def clearedRefreshCookie : Cookie :=
  { name := "discord_refresh_token", value := "",
    path := some "/", httpOnly := some true, maxAge := some 0 }

/-- The two `Set-Cookie` headers of a session-clearing response. -/
def clearedSessionPair : List Cookie :=
  [clearedAccessCookie, clearedRefreshCookie]

/-- The two `Set-Cookie` headers of a session-minting response. -/
def mintedSessionPair (t : DiscordOAuthAccessToken) : List Cookie :=
  [(DiscordAPIClient.set_cookies t).1, (DiscordAPIClient.set_cookies t).2]

/-- `remove_error_cookies` emits exactly the cleared session pair when
the inbound jar has an empty delta. -/
theorem jarsSetCookies_remove_error (jar : CookieJar) (h : jar.delta = []) :
    jarsSetCookies (some (remove_error_cookies jar)) = clearedSessionPair := by
  simp [jarsSetCookies, remove_error_cookies, CookieJar.setCookieHeaders,
    CookieJar.add_delta_of_empty _ h, clearedSessionPair, clearedAccessCookie,
    clearedRefreshCookie]

/-- `add_success_cookies` emits exactly the minted session pair when the
inbound jar has an empty delta. -/
theorem jarsSetCookies_add_success (jar : CookieJar) (h : jar.delta = [])
    (t : DiscordOAuthAccessToken) :
    jarsSetCookies (some (add_success_cookies jar (DiscordAPIClient.set_cookies t))) =
      mintedSessionPair t := by
  simp [jarsSetCookies, add_success_cookies, CookieJar.setCookieHeaders,
    CookieJar.add_delta_of_empty _ h, mintedSessionPair]

/-! ## Claim theorems -/

/-- C1: whenever `statusCheck` holds a usable access token (either the
`discord_token` cookie was present, or a refresh just succeeded — i.e.
`statusToken` returned `ok`) and the subsequent user-profile fetch
fails, the response status is 401 and the emitted `Set-Cookie` headers
clear both `discord_token` and `discord_refresh_token` with empty value
and `Max-Age=0`. -/
theorem statusCheck_profile_fetch_failure_clears_both_cookies
    (config : Option (String × String)) (jar : CookieJar)
    (refresh : String → Except String DiscordOAuthAccessToken)
    (fetchUser : String → Except String DiscordUser)
    (token : String) (cookies : Option (CookieJar × CookieJar)) (e : String)
    (hjar : jar.delta = [])
    (htok : statusToken config jar refresh = .ok (token, cookies))
    (hfail : fetchUser token = .error e) :
    (status config jar refresh fetchUser).httpStatus = 401 ∧
    jarsSetCookies (status config jar refresh fetchUser).jars =
      [{ name := "discord_token", value := "", path := some "/",
         httpOnly := some true, maxAge := some 0 },
       { name := "discord_refresh_token", value := "", path := some "/",
         httpOnly := some true, maxAge := some 0 }] := by
  have hs : status config jar refresh fetchUser =
      ⟨401, some (remove_error_cookies jar), Option.none⟩ := by
    unfold status
    rw [htok]
    simp [hfail]
  rw [hs, jarsSetCookies_remove_error jar hjar]
  exact ⟨rfl, rfl⟩

/-- C1 witness: a concrete request with a fresh access cookie whose
profile fetch fails gets a 401 with both cookies cleared. -/
theorem statusCheck_profile_fetch_failure_clears_both_cookies_witness :
    (status (some ("id", "secret")) (CookieJar.from_headers ["discord_token=tok"])
        (fun _ => .error "unused") (fun _ => .error "profile fetch failed")).httpStatus = 401 ∧
    jarsSetCookies (status (some ("id", "secret"))
        (CookieJar.from_headers ["discord_token=tok"])
        (fun _ => .error "unused") (fun _ => .error "profile fetch failed")).jars =
      [{ name := "discord_token", value := "", path := some "/",
         httpOnly := some true, maxAge := some 0 },
       { name := "discord_refresh_token", value := "", path := some "/",
         httpOnly := some true, maxAge := some 0 }] :=
  statusCheck_profile_fetch_failure_clears_both_cookies
    (some ("id", "secret")) (CookieJar.from_headers ["discord_token=tok"])
    (fun _ => .error "unused") (fun _ => .error "profile fetch failed")
    "tok" Option.none "profile fetch failed" rfl rfl rfl

/-- C2: `DiscordUserApi::get_user` does NOT return an error value on a
non-success upstream status, on a schema mismatch, or on a transport
error — as written it panics (diverges) in all three cases, so the
caller's `Err` branch is unreachable.  This theorem evaluates the code
at the failing inputs. -/
theorem get_user_panics_instead_of_returning_error :
    DiscordUserApi.get_user (.ok { status := 401, decoded := Option.none }) =
      GetUserOutcome.panicked ∧
    DiscordUserApi.get_user (.ok { status := 200, decoded := Option.none }) =
      GetUserOutcome.panicked ∧
    DiscordUserApi.get_user (.error "connection reset") =
      GetUserOutcome.panicked := by
  exact ⟨rfl, rfl, rfl⟩

/-- C3: a `statusCheck` with no access-token cookie but a refresh-token
cookie present whose refresh call fails answers 401 and emits no
`Set-Cookie` header at all. -/
theorem statusCheck_refresh_failure_emits_no_cookies
    (config : String × String) (jar : CookieJar)
    (refresh : String → Except String DiscordOAuthAccessToken)
    (fetchUser : String → Except String DiscordUser)
    (rc : Cookie) (e : String)
    (hnoacc : jar.get "discord_token" = Option.none)
    (hrc : jar.get "discord_refresh_token" = some rc)
    (hfail : refresh rc.value = .error e) :
    status (some config) jar refresh fetchUser =
      { httpStatus := 401, jars := Option.none, user := Option.none } ∧
    jarsSetCookies (status (some config) jar refresh fetchUser).jars = [] := by
  have hs : status (some config) jar refresh fetchUser =
      ⟨401, Option.none, Option.none⟩ := by
    unfold status statusToken
    rw [hnoacc, hrc]
    simp [hfail]
  exact ⟨hs, by rw [hs]; rfl⟩

/-- C3 witness: a concrete request with only a refresh cookie and a
failing refresh gets a 401 with no `Set-Cookie` headers. -/
theorem statusCheck_refresh_failure_emits_no_cookies_witness :
    status (some ("id", "secret"))
        (CookieJar.from_headers ["discord_refresh_token=ref"])
        (fun _ => .error "refresh failed") (fun _ => .error "unused") =
      { httpStatus := 401, jars := Option.none, user := Option.none } ∧
    jarsSetCookies (status (some ("id", "secret"))
        (CookieJar.from_headers ["discord_refresh_token=ref"])
        (fun _ => .error "refresh failed") (fun _ => .error "unused")).jars = [] :=
  statusCheck_refresh_failure_emits_no_cookies ("id", "secret")
    (CookieJar.from_headers ["discord_refresh_token=ref"])
    (fun _ => .error "refresh failed") (fun _ => .error "unused")
    { name := "discord_refresh_token", value := "ref" } "refresh failed"
    rfl rfl rfl

/-- C9: the cookies emitted to clear a session (by
`remove_error_cookies`, used on logout and on profile-fetch failure)
carry only `Path=/`, `HttpOnly` and `Max-Age=0` — their `Secure` and
`SameSite` attributes are absent — whereas the session-setting cookies
minted by `DiscordAPIClient::set_cookies` carry `Secure` and
`SameSite=None`. -/
theorem clear_cookies_omit_secure_and_samesite :
    (∀ jar : CookieJar,
      (remove_error_cookies jar).1.delta.getLast? = some clearedAccessCookie ∧
      (remove_error_cookies jar).2.delta.getLast? = some clearedRefreshCookie) ∧
    clearedAccessCookie.value = "" ∧ clearedAccessCookie.maxAge = some 0 ∧
    clearedAccessCookie.path = some "/" ∧ clearedAccessCookie.httpOnly = some true ∧
    clearedAccessCookie.secure = Option.none ∧ clearedAccessCookie.sameSite = Option.none ∧
    clearedRefreshCookie.value = "" ∧ clearedRefreshCookie.maxAge = some 0 ∧
    clearedRefreshCookie.path = some "/" ∧ clearedRefreshCookie.httpOnly = some true ∧
    clearedRefreshCookie.secure = Option.none ∧ clearedRefreshCookie.sameSite = Option.none ∧
    (∀ t : DiscordOAuthAccessToken,
      (DiscordAPIClient.set_cookies t).1.secure = some true ∧
      (DiscordAPIClient.set_cookies t).1.sameSite = some SameSite.none ∧
      (DiscordAPIClient.set_cookies t).2.secure = some true ∧
      (DiscordAPIClient.set_cookies t).2.sameSite = some SameSite.none) := by
  refine ⟨fun jar => ⟨?_, ?_⟩, rfl, rfl, rfl, rfl, rfl, rfl, rfl, rfl, rfl, rfl,
    rfl, rfl, fun t => ⟨rfl, rfl, rfl, rfl⟩⟩ <;>
    simp [remove_error_cookies, CookieJar.add, replaceByName,
      clearedAccessCookie, clearedRefreshCookie]

/-- C10: in `statusCheck` the provider-configuration lookup happens
before the refresh-token cookie is examined: with no `discord_token`
cookie and a missing configuration the answer is a 500 — in particular a
fully unauthenticated request (no session cookie at all) gets 500, not
401, when the OAuth2 client configuration is missing. -/
theorem statusCheck_missing_config_500 (jar : CookieJar)
    (refresh : String → Except String DiscordOAuthAccessToken)
    (fetchUser : String → Except String DiscordUser)
    (hnoacc : jar.get "discord_token" = Option.none) :
    status Option.none jar refresh fetchUser =
      { httpStatus := 500, jars := Option.none, user := Option.none } := by
  unfold status statusToken
  rw [hnoacc]
  rfl

/-- C10 witness: a request with no cookies at all and a missing
configuration gets a 500. -/
theorem statusCheck_missing_config_500_witness :
    status Option.none (CookieJar.from_headers [])
        (fun _ => .error "unused") (fun _ => .error "unused") =
      { httpStatus := 500, jars := Option.none, user := Option.none } :=
  statusCheck_missing_config_500 (CookieJar.from_headers [])
    (fun _ => .error "unused") (fun _ => .error "unused") rfl

/-- C7: the Access Guard answers 400 on a missing `User-Agent`; it
admits exactly the values splitting into two whitespace-separated tokens
whose first token is `DiscordBot` or `DiscordGuild`; every other value
is answered 401. -/
theorem protection_middleware_classification :
    protection_middleware Option.none = GuardOutcome.badRequest ∧
    (∀ ua : String, protection_middleware (some ua) = GuardOutcome.passed ↔
      (∃ t, splitWhitespace ua = ["DiscordBot", t] ∨
        splitWhitespace ua = ["DiscordGuild", t])) ∧
    (∀ ua : String, protection_middleware (some ua) ≠ GuardOutcome.passed →
      protection_middleware (some ua) = GuardOutcome.unauthorized) := by
  refine ⟨rfl, fun ua => ?_, fun ua => ?_⟩
  · show classifyUserAgent ua = GuardOutcome.passed ↔ _
    unfold classifyUserAgent
    rcases h : splitWhitespace ua with _ | ⟨a, _ | ⟨b, _ | ⟨c, rest⟩⟩⟩
    · simp
    · simp
    · by_cases ha : a = "DiscordBot"
      · subst ha
        simp
      · by_cases ha2 : a = "DiscordGuild"
        · subst ha2
          simp [ha]
        · simp [ha, ha2]
    · simp
  · intro hne
    replace hne : classifyUserAgent ua ≠ GuardOutcome.passed := hne
    show classifyUserAgent ua = GuardOutcome.unauthorized
    unfold classifyUserAgent at hne ⊢
    rcases h : splitWhitespace ua with _ | ⟨a, _ | ⟨b, _ | ⟨c, rest⟩⟩⟩
    · rfl
    · rfl
    · rw [h] at hne
      by_cases ha : a = "DiscordBot"
      · subst ha
        simp at hne
      · by_cases ha2 : a = "DiscordGuild"
        · subst ha2
          simp [ha] at hne
        · simp [ha, ha2]
    · rfl

/-- C7 witness: `DiscordBot sometoken` is admitted, `Mozilla/5.0` gets a
401, a missing header gets a 400. -/
theorem protection_middleware_classification_witness :
    protection_middleware Option.none = GuardOutcome.badRequest ∧
    protection_middleware (some "DiscordBot sometoken") = GuardOutcome.passed ∧
    protection_middleware (some "Mozilla/5.0") = GuardOutcome.unauthorized :=
  ⟨protection_middleware_classification.1,
    (protection_middleware_classification.2.1 "DiscordBot sometoken").mpr
      ⟨"sometoken", Or.inl (by decide)⟩,
    protection_middleware_classification.2.2 "Mozilla/5.0" (by decide)⟩

/-- A gateway upstream whose resolution steps all succeed and whose
durable instance answers a fixed response. -/
def demoUpstream : GatewayUpstream :=
  { durableObjectOk := true, idFromNameOk := true, stubOk := true,
    newRequestOk := true, headersOk := true,
    fetch := fun _ => .ok { status := 200, headers := [], body := "shard response" } }

/-- C6 counterexample: `handle_websocket` hardcodes the forwarded method
to GET, so a HEAD request to the gateway (axum's `get` route also
dispatches HEAD) is forwarded with method GET, not with its original
method. -/
theorem gateway_forwards_head_as_get :
    handle_websocket "abc"
        { method := Method.head, uri := "/api/gateway/abc",
          headers := [("upgrade", "websocket")] } demoUpstream =
      GatewayResult.forwarded
        { method := Method.get, url := "/api/gateway/abc",
          headers := [("upgrade", "websocket")] }
        { status := 200, headers := [], body := "shard response" } ∧
    Method.get ≠ Method.head := by
  exact ⟨rfl, by decide⟩

/-- C6 (amended): when shard resolution succeeds, the forwarded request
carries the original request's headers and URI but always the GET
method, and the durable instance's response is returned unmodified. -/
theorem gateway_forwards_headers_and_response (id : String)
    (req : InboundRequest) (up : GatewayUpstream) (resp : WorkerResponse)
    (h1 : up.durableObjectOk = true) (h2 : up.idFromNameOk = true)
    (h3 : up.stubOk = true) (h4 : up.newRequestOk = true)
    (h5 : up.headersOk = true)
    (hf : up.fetch ⟨Method.get, req.uri, req.headers⟩ = .ok resp) :
    handle_websocket id req up =
      GatewayResult.forwarded
        { method := Method.get, url := req.uri, headers := req.headers } resp := by
  unfold handle_websocket
  rw [h1, h2, h3, h4, h5]
  simp [hf]

/-- C6 witness: a concrete successfully resolved request is forwarded
with its headers and the GET method, and the shard response comes back
unmodified. -/
theorem gateway_forwards_headers_and_response_witness :
    handle_websocket "abc"
        { method := Method.get, uri := "/api/gateway/abc",
          headers := [("upgrade", "websocket")] } demoUpstream =
      GatewayResult.forwarded
        { method := Method.get, url := "/api/gateway/abc",
          headers := [("upgrade", "websocket")] }
        { status := 200, headers := [], body := "shard response" } :=
  gateway_forwards_headers_and_response "abc"
    { method := Method.get, uri := "/api/gateway/abc",
      headers := [("upgrade", "websocket")] } demoUpstream
    { status := 200, headers := [], body := "shard response" }
    rfl rfl rfl rfl rfl rfl

/-- The discipline C8 asserts of a response's `Set-Cookie` headers: both
session cookies cleared, both set from one token-exchange result, or
neither mentioned. -/
def sessionPairDiscipline (l : List Cookie) : Prop :=
  l = [] ∨ l = clearedSessionPair ∨ ∃ t, l = mintedSessionPair t

/-- The three shapes `statusToken` can take: an error carrying no jars,
a bare token with no jars, or a refreshed token with the freshly minted
session pair. -/
theorem statusToken_cases (config : Option (String × String)) (jar : CookieJar)
    (refresh : String → Except String DiscordOAuthAccessToken) :
    (∃ r, statusToken config jar refresh = .error r ∧ r.jars = Option.none) ∨
    (∃ tok, statusToken config jar refresh = .ok (tok, Option.none)) ∨
    (∃ t, statusToken config jar refresh =
      .ok (t.access_token,
        some (add_success_cookies jar (DiscordAPIClient.set_cookies t)))) := by
  unfold statusToken
  split
  · exact Or.inr (Or.inl ⟨_, rfl⟩)
  · split
    · exact Or.inl ⟨_, rfl, rfl⟩
    · split
      · exact Or.inl ⟨_, rfl, rfl⟩
      · split
        · exact Or.inl ⟨_, rfl, rfl⟩
        · exact Or.inr (Or.inr ⟨_, rfl⟩)

/-- The jars the `status` handler can return: none, the pair clearing
both cookies, or the pair minting both cookies from one token. -/
theorem status_jars_cases (config : Option (String × String)) (jar : CookieJar)
    (refresh : String → Except String DiscordOAuthAccessToken)
    (fetchUser : String → Except String DiscordUser) :
    (status config jar refresh fetchUser).jars = Option.none ∨
    (status config jar refresh fetchUser).jars = some (remove_error_cookies jar) ∨
    ∃ t, (status config jar refresh fetchUser).jars =
      some (add_success_cookies jar (DiscordAPIClient.set_cookies t)) := by
  rcases statusToken_cases config jar refresh with ⟨r, hr, hj⟩ | ⟨tok, htok⟩ | ⟨t, htok⟩
  · have hs : status config jar refresh fetchUser = r := by
      unfold status
      rw [hr]
    rw [hs]
    exact Or.inl hj
  · have hs : status config jar refresh fetchUser =
        match fetchUser tok with
        | .ok user => ⟨200, Option.none, some user⟩
        | .error _ => ⟨401, some (remove_error_cookies jar), Option.none⟩ := by
      unfold status
      rw [htok]
    rw [hs]
    cases hf : fetchUser tok with
    | ok u => exact Or.inl rfl
    | error e => exact Or.inr (Or.inl rfl)
  · have hs : status config jar refresh fetchUser =
        match fetchUser t.access_token with
        | .ok user =>
          ⟨200, some (add_success_cookies jar (DiscordAPIClient.set_cookies t)),
            some user⟩
        | .error _ => ⟨401, some (remove_error_cookies jar), Option.none⟩ := by
      unfold status
      rw [htok]
    rw [hs]
    cases hf : fetchUser t.access_token with
    | ok u => exact Or.inr (Or.inr ⟨t, rfl⟩)
    | error e => exact Or.inr (Or.inl rfl)

/-- C8: at every session entry point (`login`, `redirect`, `status`,
`logout`), the emitted `Set-Cookie` headers either set both
`discord_token` and `discord_refresh_token`, clear both, or mention
neither — never one without the other. -/
theorem session_cookie_pair_discipline
    (config : Option (String × String)) (api_host webpage : String)
    (jar : CookieJar) (code : Option String)
    (exchange refresh : String → Except String DiscordOAuthAccessToken)
    (fetchUser : String → Except String DiscordUser)
    (hjar : jar.delta = []) :
    sessionPairDiscipline (login config api_host webpage jar).setCookies ∧
    sessionPairDiscipline (redirect config api_host webpage code jar exchange).setCookies ∧
    sessionPairDiscipline (statusResponse config jar refresh fetchUser).setCookies ∧
    sessionPairDiscipline (logout webpage jar).setCookies := by
  refine ⟨?_, ?_, ?_, ?_⟩
  · left
    unfold login
    rcases config with _ | ⟨cid, sec⟩
    · rfl
    · cases jar.get "discord_token" <;> rfl
  · unfold sessionPairDiscipline redirect
    rcases config with _ | cfg
    · exact Or.inl rfl
    · rcases code with _ | c
      · exact Or.inl rfl
      · cases hx : exchange c with
        | error e => simp [hx]
        | ok t =>
          right; right
          exact ⟨t, by
            simp [hx, jarsSetCookies, CookieJar.setCookieHeaders,
              CookieJar.add_delta_of_empty _ hjar, mintedSessionPair]⟩
  · rcases status_jars_cases config jar refresh fetchUser with h | h | ⟨t, h⟩
    · left
      simp [statusResponse, h, jarsSetCookies]
    · right; left
      simp [statusResponse, h, jarsSetCookies_remove_error _ hjar]
    · right; right
      exact ⟨t, by simp [statusResponse, h, jarsSetCookies_add_success _ hjar]⟩
  · right; left
    unfold logout
    exact jarsSetCookies_remove_error _ hjar

/-- C8 witness: the discipline at a concrete request (empty jar, failing
oracles) for all four entry points. -/
theorem session_cookie_pair_discipline_witness :
    sessionPairDiscipline (login (some ("id", "secret")) "https://api.example.com"
      "https://web.example.com" (CookieJar.from_headers [])).setCookies ∧
    sessionPairDiscipline (redirect (some ("id", "secret")) "https://api.example.com"
      "https://web.example.com" Option.none (CookieJar.from_headers [])
      (fun _ => .error "exchange failed")).setCookies ∧
    sessionPairDiscipline (statusResponse (some ("id", "secret"))
      (CookieJar.from_headers []) (fun _ => .error "refresh failed")
      (fun _ => .error "fetch failed")).setCookies ∧
    sessionPairDiscipline (logout "https://web.example.com"
      (CookieJar.from_headers [])).setCookies :=
  session_cookie_pair_discipline (some ("id", "secret")) "https://api.example.com"
    "https://web.example.com" (CookieJar.from_headers []) Option.none
    (fun _ => .error "exchange failed") (fun _ => .error "refresh failed")
    (fun _ => .error "fetch failed") rfl

/-- Folding name-keyed insertion over cookies with pairwise-distinct
names appends them all without loss. -/
theorem foldl_replaceByName (l : List Cookie) (acc : List Cookie)
    (h : ((acc ++ l).map Cookie.name).Nodup) :
    l.foldl replaceByName acc = acc ++ l := by
  induction l generalizing acc with
  | nil => simp
  | cons c cs ih =>
    have hdisj : (acc.map Cookie.name).Disjoint ((c :: cs).map Cookie.name) := by
      rw [List.map_append, List.nodup_append] at h
      exact h.2.2
    have hnotin : c.name ∉ acc.map Cookie.name := by
      intro hmem
      exact hdisj hmem (by simp)
    have hacc : replaceByName acc c = acc ++ [c] := by
      unfold replaceByName
      congr 1
      apply List.filter_eq_self.mpr
      intro x hx
      simp only [ne_eq, decide_eq_true_eq]
      intro he
      exact hnotin (he ▸ List.mem_map_of_mem Cookie.name hx)
    rw [List.foldl_cons, hacc, ih (acc ++ [c]) (by simpa using h)]
    simp

/-- C5 counterexample: the header line `a=1;a=2` holds two
syntactically valid segments, yet the jar holds a single entry — the
name-keyed jar collapses duplicate names, so it does not contain
"exactly the N valid entries". -/
theorem from_headers_duplicate_names_collapse :
    (cookies_from_request ["a=1;a=2"]).length = 2 ∧
    (CookieJar.from_headers ["a=1;a=2"]).original.length = 1 ∧
    (CookieJar.from_headers ["a=1;a=2"]).original ≠
      cookies_from_request ["a=1;a=2"] := by
  decide

/-- C5 (amended): jar construction is total by definition and drops
malformed segments silently; when the valid segments carry pairwise
distinct names the jar holds exactly those N entries (in order, trimmed,
with nothing else), and every jar entry originates from some
successfully parsed `;`-segment of some header line.  Without the
distinct-name proviso, later duplicates replace earlier ones. -/
theorem from_headers_valid_entries (lines : List String)
    (hnodup : ((cookies_from_request lines).map Cookie.name).Nodup) :
    (CookieJar.from_headers lines).original = cookies_from_request lines ∧
    (CookieJar.from_headers lines).delta = [] ∧
    ∀ c ∈ (CookieJar.from_headers lines).original,
      ∃ line ∈ lines, ∃ seg ∈ splitOnChar ';' line.data,
        Cookie.parse ⟨trimChars seg⟩ = some c := by
  have h1 : (CookieJar.from_headers lines).original = cookies_from_request lines := by
    show (cookies_from_request lines).foldl replaceByName [] = _
    simpa using foldl_replaceByName (cookies_from_request lines) [] (by simpa using hnodup)
  refine ⟨h1, rfl, ?_⟩
  intro c hc
  rw [h1] at hc
  unfold cookies_from_request at hc
  rcases List.mem_filterMap.mp hc with ⟨seg, hseg, hparse⟩
  rcases List.mem_flatMap.mp hseg with ⟨line, hline, hsegline⟩
  exact ⟨line, hline, seg, hsegline, hparse⟩

/-- C5 witness: a header with two valid and two malformed segments
yields a jar holding exactly the two valid entries and an empty delta. -/
theorem from_headers_valid_entries_witness :
    (CookieJar.from_headers ["a=1; b=2; ; garbage"]).original =
      cookies_from_request ["a=1; b=2; ; garbage"] ∧
    (CookieJar.from_headers ["a=1; b=2; ; garbage"]).delta = [] :=
  ⟨(from_headers_valid_entries ["a=1; b=2; ; garbage"] (by decide)).1,
    (from_headers_valid_entries ["a=1; b=2; ; garbage"] (by decide)).2.1⟩

/-- Every character of a UTF-8 byte sequence is a byte. -/
theorem utf8Bytes_lt (d : Char) : ∀ b ∈ utf8Bytes d, b < 256 := by
  have hv : d.toNat < 0x110000 := by
    have h := d.valid
    show d.val.toNat < 0x110000
    rcases h with h | ⟨h1, h2⟩ <;> omega
  intro b hb
  unfold utf8Bytes at hb
  by_cases h1 : d.toNat < 0x80
  · simp only [h1, if_true] at hb
    simp at hb
    omega
  · by_cases h2 : d.toNat < 0x800
    · simp only [h1, if_false, h2, if_true] at hb
      simp at hb
      rcases hb with hb | hb <;> omega
    · by_cases h3 : d.toNat < 0x10000
      · simp only [h1, if_false, h2, if_false, h3, if_true] at hb
        simp at hb
        rcases hb with hb | hb | hb <;> omega
      · simp only [h1, if_false, h2, if_false, h3, if_false] at hb
        simp at hb
        rcases hb with hb | hb | hb | hb <;> omega

set_option maxRecDepth 4000 in
/-- Percent-encoded output characters (for any byte) are in the
WHATWG-query-safe set and in the percent-encoded-form alphabet. -/
theorem percentEncodeByte_safe : ∀ b < 256,
    ((percentEncodeByte b).all fun c =>
      !queryNeedsEncoding c && (isUrlUnreserved c || c = '%')) = true := by
  decide

/-- Every character `urlencoding::encode` emits is query-safe and in the
percent-encoded-form alphabet (unreserved or `%`). -/
theorem urlencodeChar_safe (d : Char) : ∀ c ∈ urlencodeChar d,
    (!queryNeedsEncoding c && (isUrlUnreserved c || c = '%')) = true := by
  intro c hc
  unfold urlencodeChar at hc
  by_cases h : isUrlUnreserved d
  · simp only [h, if_true] at hc
    simp at hc
    subst hc
    have hq : queryNeedsEncoding c = false := by
      unfold isUrlUnreserved at h
      unfold queryNeedsEncoding
      simp only [Bool.or_eq_true, decide_eq_true_eq, Bool.and_eq_true] at h
      simp only [Bool.or_eq_false_iff, decide_eq_false_iff_not]
      omega
    simp [hq, h]
  · simp only [h, if_false] at hc
    rcases List.mem_flatMap.mp hc with ⟨b, hb, hcb⟩
    have hball := percentEncodeByte_safe b (utf8Bytes_lt d b hb)
    rw [List.all_eq_true] at hball
    exact hball c hcb

/-- A character-level map that fixes every element fixes the list. -/
theorem flatMap_fixes (l : List Char) (f : Char → List Char)
    (h : ∀ c ∈ l, f c = [c]) : l.flatMap f = l := by
  induction l with
  | nil => rfl
  | cons c cs ih =>
    rw [List.flatMap_cons, h c (by simp), ih (fun d hd => h d (by simp [hd]))]
    rfl

/-- `Url::set_query` leaves `urlencoding::encode` output untouched: an
already percent-encoded string is not re-encoded. -/
theorem encodeQuery_urlencode (s : String) :
    encodeQuery (urlencode s) = urlencode s := by
  show String.mk ((urlencode s).data.flatMap encodeQueryChar) = urlencode s
  rw [flatMap_fixes]
  intro c hc
  rcases List.mem_flatMap.mp hc with ⟨d, hd, hcd⟩
  have := urlencodeChar_safe d c hcd
  simp only [Bool.and_eq_true, Bool.not_eq_true'] at this
  unfold encodeQueryChar
  simp [this.1]

/-- `Url::set_query` encoding distributes over append. -/
theorem encodeQuery_append (s t : String) :
    encodeQuery (s ++ t) = encodeQuery s ++ encodeQuery t := by
  show String.mk ((s.data ++ t.data).flatMap encodeQueryChar) = _
  rw [List.flatMap_append]
  rfl

/-- C4: with scopes `[identify, guilds, email]`, `get_url` yields the
authorize endpoint whose query carries the scope parameter as the
literal, unencoded `identify+guilds+email` (the URL ends in that
substring) while the redirect URI appears percent-encoded
(`urlencoding::encode` output, every character of which is unreserved or
`%`). -/
theorem get_url_scope_literal_and_redirect_encoded (cid ruri : String) :
    DiscordOAuth2.get_url
        { client_id := cid, redirect_uri := ruri,
          scopes := [.Identify, .Guilds, .Email] } =
      "https://discord.com/api/v10/oauth2/authorize?" ++
        ("client_id=" ++ encodeQuery cid ++ "&response_type=code&redirect_uri=" ++
          urlencode ruri ++ "&scope=identify+guilds+email") ∧
    (∃ s, DiscordOAuth2.get_url
        { client_id := cid, redirect_uri := ruri,
          scopes := [.Identify, .Guilds, .Email] } =
      s ++ "scope=identify+guilds+email") ∧
    ((urlencode ruri).data.all fun c => isUrlUnreserved c || c = '%') = true := by
  have h0 : DiscordOAuth2.get_url
      { client_id := cid, redirect_uri := ruri,
        scopes := [.Identify, .Guilds, .Email] } =
      "https://discord.com/api/v10/oauth2/authorize?" ++
        encodeQuery ("client_id=" ++ cid ++ "&response_type=code&redirect_uri=" ++
          urlencode ruri ++ "&scope=" ++ "identify+guilds+email") := rfl
  have hA : encodeQuery "client_id=" = "client_id=" := by decide
  have hB : encodeQuery "&response_type=code&redirect_uri=" =
      "&response_type=code&redirect_uri=" := by decide
  have hC : encodeQuery "&scope=" = "&scope=" := by decide
  have hS : encodeQuery "identify+guilds+email" = "identify+guilds+email" := by decide
  have hmain : DiscordOAuth2.get_url
      { client_id := cid, redirect_uri := ruri,
        scopes := [.Identify, .Guilds, .Email] } =
      "https://discord.com/api/v10/oauth2/authorize?" ++
        ("client_id=" ++ encodeQuery cid ++ "&response_type=code&redirect_uri=" ++
          urlencode ruri ++ "&scope=identify+guilds+email") := by
    rw [h0, encodeQuery_append, encodeQuery_append, encodeQuery_append,
      encodeQuery_append, encodeQuery_append, encodeQuery_urlencode,
      hA, hB, hC, hS, String.append_assoc _ "&scope=" "identify+guilds+email",
      show ("&scope=" ++ "identify+guilds+email" : String) =
        "&scope=identify+guilds+email" from rfl]
  have append_shift : ∀ a b c : String, a ++ (b ++ ("&" ++ c)) = (a ++ (b ++ "&")) ++ c := by
    intro a b c
    rw [← String.append_assoc b, ← String.append_assoc a]
  refine ⟨hmain, ⟨"https://discord.com/api/v10/oauth2/authorize?" ++
    ("client_id=" ++ encodeQuery cid ++ "&response_type=code&redirect_uri=" ++
      urlencode ruri ++ "&"), ?_⟩, ?_⟩
  · rw [hmain,
      show ("&scope=identify+guilds+email" : String) =
        "&" ++ "scope=identify+guilds+email" from rfl,
      append_shift]
  · rw [List.all_eq_true]
    intro c hc
    rcases List.mem_flatMap.mp hc with ⟨d, hd, hcd⟩
    have := urlencodeChar_safe d c hcd
    simp only [Bool.and_eq_true] at this
    exact this.2

end BackendApi
